import Mathlib

/-!
Verification of the daily-bonus claim controller and related helpers of
`static/js/app.js` (GigSpace front-end).

The JavaScript is shallowly embedded: times are epoch milliseconds as `Int`
(JavaScript numbers are exact on these magnitudes), `Math.floor(x / y)` for a
positive literal `y` is `Int.fdiv`, the JavaScript `%` operator is `Int.tmod`
(remainder with the sign of the dividend), and the DOM fields the controller
writes are carried explicitly in a state record.
-/

/-- `const ONE_DAY = 24 * 60 * 60 * 1000` (app.js line 228). -/
def ONE_DAY : Int := 24 * 60 * 60 * 1000

/-- The profile fields the dashboard keeps in the `userData` global
(`balance`, `daily_streak`, `last_daily_claim`; app.js lines 164-177). -/
structure UserData where
  balance : Int
  daily_streak : Int
  last_daily_claim : Int
  deriving DecidableEq, Repr

/-- Whether the claim button is in the enabled ("claimable") or the
countdown ("cooldown") branch of `checkDailyBonus`. -/
inductive BtnMode where
  | claimable
  | cooldown
  deriving DecidableEq, Repr

/-- Everything one invocation of `checkDailyBonus` writes: the button state,
its text, the countdown components it computed, and whether it scheduled the
1-second re-evaluation tick (`setTimeout(checkDailyBonus, 1000)`). In the
claimable branch no countdown is computed; the component fields are 0. -/
structure EvalResult where
  mode : BtnMode
  disabled : Bool
  label : String
  hoursRemaining : Int
  minutesRemaining : Int
  secondsRemaining : Int
  tickScheduled : Bool
  deriving DecidableEq, Repr

/-- `checkDailyBonus` (app.js lines 220-245) as a pure function of the
current time and the user data it reads. -/
def checkDailyBonus (now : Int) (u : UserData) : EvalResult :=
  let lastClaim := u.last_daily_claim
  if lastClaim = 0 ∨ now - lastClaim ≥ ONE_DAY then
    { mode := BtnMode.claimable
      disabled := false
      label := "Claim Daily Bonus"
      hoursRemaining := 0
      minutesRemaining := 0
      secondsRemaining := 0
      tickScheduled := false }
  else
    let timeLeft := ONE_DAY - (now - lastClaim)
    let hours := timeLeft.fdiv (1000 * 60 * 60)
    let minutes := (timeLeft.tmod (1000 * 60 * 60)).fdiv (1000 * 60)
    let seconds := (timeLeft.tmod (1000 * 60)).fdiv 1000
    { mode := BtnMode.cooldown
      disabled := true
      label := "Next Bonus in " ++ toString hours ++ "h " ++ toString minutes
        ++ "m " ++ toString seconds ++ "s"
      hoursRemaining := hours
      minutesRemaining := minutes
      secondsRemaining := seconds
      tickScheduled := true }

/-- A parsed JSON body as `apiCall` sees it: the optional `message` field is
the only part `apiCall` inspects. -/
structure JsonBody where
  message : Option String
  deriving DecidableEq, Repr

/-- Outcome of `fetch` + `response.json()` as observed inside `apiCall`:
either the promise chain rejected (transport error, carrying the error's
message) or a response with its HTTP `ok` flag and parsed body arrived. -/
inductive FetchOutcome where
  | rejected (errMessage : String)
  | completed (ok : Bool) (result : JsonBody)
  deriving DecidableEq, Repr

/-- `apiCall` (app.js lines 37-62). On a non-ok response it throws
`new Error(result.message || 'Request failed')`; the catch block logs and
rethrows, so every failure propagates to the caller. JavaScript `||`
treats an absent and an empty-string `message` as falsy. -/
def apiCall (outcome : FetchOutcome) : Except String JsonBody :=
  match outcome with
  | FetchOutcome.rejected e => Except.error e
  | FetchOutcome.completed ok result =>
      if ok then
        Except.ok result
      else
        Except.error
          (match result.message with
            | some m => if m = "" then "Request failed" else m
            | none => "Request failed")

/-- Success body of `POST /api/user/claim-daily` as used by
`claimDailyBonus` (app.js lines 262-265). -/
structure ClaimSuccess where
  message : String
  new_balance : Int
  streak : Int
  deriving DecidableEq, Repr

/-- The dashboard state touched by the claim workflow: the `userData`
global, the DOM fields written (`nav-balance`/`user-balance`,
`daily-streak`, the claim button), whether the last `checkDailyBonus`
invocation scheduled its follow-up tick, and the toasts shown. -/
structure AppState where
  userData : UserData
  balanceDisplay : Int
  streakDisplay : Int
  buttonDisabled : Bool
  buttonLabel : String
  tickPending : Bool
  toasts : List (String × String)
  deriving DecidableEq, Repr

/-- One invocation of `checkDailyBonus` as a state update: it reads
`userData` and rewrites only the button fields and the tick schedule
(app.js lines 220-245). -/
def runCheckDailyBonus (now : Int) (s : AppState) : AppState :=
  let r := checkDailyBonus now s.userData
  { s with
      buttonDisabled := r.disabled
      buttonLabel := r.label
      tickPending := r.tickScheduled }

/-- `claimDailyBonus` (app.js lines 260-270), given the settled outcome of
`apiCall('/user/claim-daily', 'POST')`. On success it toasts the server
message, writes the returned balance and streak to the DOM, and re-runs
`checkDailyBonus`; note that `userData` itself is never written. On error it
only toasts the error message. -/
def claimDailyBonus (now : Int) (s : AppState) (resp : Except String ClaimSuccess) :
    AppState :=
  match resp with
  | Except.ok result =>
      let s1 :=
        { s with
            toasts := s.toasts ++ [(result.message, "success")]
            balanceDisplay := result.new_balance
            streakDisplay := result.streak }
      runCheckDailyBonus now s1
  | Except.error e => { s with toasts := s.toasts ++ [(e, "error")] }

/-- Effect of the comma-inserting regex of `formatNumber` (app.js line 79)
on a digit string: a comma before every digit from which a multiple of
three digits remains. -/
def commaGroupFrom : List Char → List Char
  | [] => []
  | [c] => [c]
  | c :: cs =>
      if cs.length % 3 = 0 then c :: ',' :: commaGroupFrom cs
      else c :: commaGroupFrom cs

/-- `formatNumber` (app.js lines 78-80): decimal rendering with thousands
separators; the leading minus sign is not a word boundary for the regex, so
it is left untouched. -/
def formatNumber (num : Int) : String :=
  match (toString num).data with
  | '-' :: ds => String.mk ('-' :: commaGroupFrom ds)
  | ds => String.mk (commaGroupFrom ds)

/-- A transaction as rendered by `displayTransactions`
(app.js lines 201-216). -/
structure Transaction where
  type : String
  description : String
  timestamp : String
  amount : Int
  deriving DecidableEq, Repr

/-- The HTML template for one transaction (app.js lines 201-215);
inter-tag layout whitespace of the template literal is elided. -/
def renderTx (tx : Transaction) : String :=
  "<div class=\"transaction-item\"><div class=\"transaction-info\">"
    ++ "<div class=\"transaction-icon " ++ tx.type.toLower ++ "\">"
    ++ (if tx.type = "EARN" then "↑" else "↓")
    ++ "</div><div><div class=\"transaction-desc\">" ++ tx.description
    ++ "</div><div class=\"transaction-date\">" ++ tx.timestamp
    ++ "</div></div></div><div class=\"transaction-amount " ++ tx.type.toLower ++ "\">"
    ++ (if tx.type = "EARN" then "+" else "-") ++ formatNumber tx.amount
    ++ "</div></div>"

/-- `displayTransactions` (app.js lines 192-217): the innerHTML written to
the `recent-transactions` container. -/
def displayTransactions (transactions : List Transaction) : String :=
  if transactions.length = 0 then
    "<p class=\"text-center text-muted\">No transactions yet</p>"
  else
    String.join ((transactions.take 5).map renderTx)

/-- For a nonnegative dividend the JavaScript floor/remainder operations used
in the countdown agree with euclidean division, which `omega` understands. -/
lemma countdown_ops_eq_euclidean (t : Int) (ht : 0 ≤ t) :
    t.fdiv (1000 * 60 * 60) = t / 3600000 ∧
    (t.tmod (1000 * 60 * 60)).fdiv (1000 * 60) = t % 3600000 / 60000 ∧
    (t.tmod (1000 * 60)).fdiv 1000 = t % 60000 / 1000 := by
  have ha : (1000 * 60 * 60 : Int) = 3600000 := by norm_num
  have hb : (1000 * 60 : Int) = 60000 := by norm_num
  rw [ha, hb]
  refine ⟨Int.fdiv_eq_ediv _ (by norm_num), ?_, ?_⟩
  · rw [Int.tmod_eq_emod ht (by norm_num), Int.fdiv_eq_ediv _ (by norm_num)]
  · rw [Int.tmod_eq_emod ht (by norm_num), Int.fdiv_eq_ediv _ (by norm_num)]

/-- Claim C1: `checkDailyBonus` puts the button in the claimable state
exactly when `last_daily_claim` is the never-claimed sentinel `0` or at
least `ONE_DAY` (86 400 000 ms) has elapsed; in particular the sentinel wins
regardless of `now`, and the exact 24-hour boundary is claimable. -/
theorem checkDailyBonus_claimable_iff (now : Int) (u : UserData) :
    (checkDailyBonus now u).mode = BtnMode.claimable ↔
      (u.last_daily_claim = 0 ∨ now - u.last_daily_claim ≥ ONE_DAY) := by
  by_cases hc : u.last_daily_claim = 0 ∨ now - u.last_daily_claim ≥ ONE_DAY
  · simp only [checkDailyBonus, if_pos hc]
    simpa using hc
  · simp only [checkDailyBonus, if_neg hc]
    simpa using hc

/-- Claim C5: `checkDailyBonus` is pure and idempotent as a state update: it
leaves `userData`, the balance and streak displays, and the toast log
untouched, and running it twice at the same instant equals running it
once. -/
theorem runCheckDailyBonus_idempotent (now : Int) (s : AppState) :
    (runCheckDailyBonus now s).userData = s.userData ∧
    (runCheckDailyBonus now s).balanceDisplay = s.balanceDisplay ∧
    (runCheckDailyBonus now s).streakDisplay = s.streakDisplay ∧
    (runCheckDailyBonus now s).toasts = s.toasts ∧
    runCheckDailyBonus now (runCheckDailyBonus now s) = runCheckDailyBonus now s :=
  ⟨rfl, rfl, rfl, rfl, rfl⟩

/-- Claim C6: an invocation of `checkDailyBonus` schedules the 1-second
re-evaluation tick exactly when it lands in the cooldown branch; a
claimable result never schedules a further tick. -/
theorem checkDailyBonus_tick_iff_cooldown (now : Int) (u : UserData) :
    (checkDailyBonus now u).tickScheduled = true ↔
      (checkDailyBonus now u).mode = BtnMode.cooldown := by
  by_cases hc : u.last_daily_claim = 0 ∨ now - u.last_daily_claim ≥ ONE_DAY
  · simp [checkDailyBonus, if_pos hc]
  · simp [checkDailyBonus, if_neg hc]

/-- Claim C2, counterexample: the stated window `0 < now − last < 86 400 000`
also contains the never-claimed sentinel `last = 0` (e.g. `now = 1000`),
where `checkDailyBonus` returns the claimable state, not the cooldown. -/
theorem checkDailyBonus_sentinel_window_claimable :
    (0 : Int) < 1000 - 0 ∧ (1000 : Int) - 0 < ONE_DAY ∧
    (checkDailyBonus 1000
        { balance := 0, daily_streak := 0, last_daily_claim := 0 }).mode =
      BtnMode.claimable := by
  refine ⟨by norm_num, by norm_num [ONE_DAY], rfl⟩

/-- Claim C2 (amended: additionally `lastClaimEpochMillis ≠ 0`, since the
sentinel bypasses the cooldown arithmetic): inside the cooldown window the
result is the cooldown state and the hour/minute/second components are the
nonnegative floor-division decomposition of the remaining milliseconds —
their weighted sum is within (below) 1000 ms of the true remainder. -/
theorem checkDailyBonus_cooldown_decomposition (now : Int) (u : UserData)
    (h0 : u.last_daily_claim ≠ 0)
    (h1 : 0 < now - u.last_daily_claim)
    (h2 : now - u.last_daily_claim < ONE_DAY) :
    (checkDailyBonus now u).mode = BtnMode.cooldown ∧
    0 ≤ (checkDailyBonus now u).hoursRemaining ∧
    0 ≤ (checkDailyBonus now u).minutesRemaining ∧
    0 ≤ (checkDailyBonus now u).secondsRemaining ∧
    (checkDailyBonus now u).hoursRemaining * 3600000 +
        (checkDailyBonus now u).minutesRemaining * 60000 +
        (checkDailyBonus now u).secondsRemaining * 1000 ≤
      ONE_DAY - (now - u.last_daily_claim) ∧
    ONE_DAY - (now - u.last_daily_claim) <
      (checkDailyBonus now u).hoursRemaining * 3600000 +
        (checkDailyBonus now u).minutesRemaining * 60000 +
        (checkDailyBonus now u).secondsRemaining * 1000 + 1000 := by
  have hday : ONE_DAY = 86400000 := by norm_num [ONE_DAY]
  have hc : ¬(u.last_daily_claim = 0 ∨ now - u.last_daily_claim ≥ ONE_DAY) := by
    push_neg
    exact ⟨h0, h2⟩
  simp only [checkDailyBonus, if_neg hc]
  rcases countdown_ops_eq_euclidean (ONE_DAY - (now - u.last_daily_claim))
      (by omega) with ⟨e1, e2, e3⟩
  rw [e1, e2, e3]
  refine ⟨trivial, ?_, ?_, ?_, ?_, ?_⟩ <;> omega

/-- Claim C2, witness of the amended theorem at a concrete point: claimed
5 000 000 ms before `now = 1 700 000 000 000`. -/
theorem checkDailyBonus_cooldown_decomposition_witness :
    (checkDailyBonus 1700000000000
        { balance := 0, daily_streak := 0,
          last_daily_claim := 1699995000000 }).mode = BtnMode.cooldown ∧
    0 ≤ (checkDailyBonus 1700000000000
        { balance := 0, daily_streak := 0,
          last_daily_claim := 1699995000000 }).hoursRemaining ∧
    0 ≤ (checkDailyBonus 1700000000000
        { balance := 0, daily_streak := 0,
          last_daily_claim := 1699995000000 }).minutesRemaining ∧
    0 ≤ (checkDailyBonus 1700000000000
        { balance := 0, daily_streak := 0,
          last_daily_claim := 1699995000000 }).secondsRemaining ∧
    (checkDailyBonus 1700000000000
        { balance := 0, daily_streak := 0,
          last_daily_claim := 1699995000000 }).hoursRemaining * 3600000 +
        (checkDailyBonus 1700000000000
          { balance := 0, daily_streak := 0,
            last_daily_claim := 1699995000000 }).minutesRemaining * 60000 +
        (checkDailyBonus 1700000000000
          { balance := 0, daily_streak := 0,
            last_daily_claim := 1699995000000 }).secondsRemaining * 1000 ≤
      ONE_DAY - (1700000000000 - 1699995000000) ∧
    ONE_DAY - (1700000000000 - 1699995000000) <
      (checkDailyBonus 1700000000000
          { balance := 0, daily_streak := 0,
            last_daily_claim := 1699995000000 }).hoursRemaining * 3600000 +
        (checkDailyBonus 1700000000000
          { balance := 0, daily_streak := 0,
            last_daily_claim := 1699995000000 }).minutesRemaining * 60000 +
        (checkDailyBonus 1700000000000
          { balance := 0, daily_streak := 0,
            last_daily_claim := 1699995000000 }).secondsRemaining * 1000 + 1000 :=
  checkDailyBonus_cooldown_decomposition 1700000000000
    { balance := 0, daily_streak := 0, last_daily_claim := 1699995000000 }
    (by norm_num) (by norm_num) (by norm_num [ONE_DAY])

/-- Claim C9: inside the cooldown window the displayed components never
overflow their buckets: at most 23 hours, 59 minutes, 59 seconds. -/
theorem checkDailyBonus_components_bounded (now : Int) (u : UserData)
    (h1 : 0 < now - u.last_daily_claim)
    (h2 : now - u.last_daily_claim < ONE_DAY) :
    (checkDailyBonus now u).hoursRemaining ≤ 23 ∧
    (checkDailyBonus now u).minutesRemaining ≤ 59 ∧
    (checkDailyBonus now u).secondsRemaining ≤ 59 := by
  have hday : ONE_DAY = 86400000 := by norm_num [ONE_DAY]
  by_cases hc : u.last_daily_claim = 0 ∨ now - u.last_daily_claim ≥ ONE_DAY
  · simp only [checkDailyBonus, if_pos hc]
    refine ⟨by norm_num, by norm_num, by norm_num⟩
  · simp only [checkDailyBonus, if_neg hc]
    rcases countdown_ops_eq_euclidean (ONE_DAY - (now - u.last_daily_claim))
        (by omega) with ⟨e1, e2, e3⟩
    rw [e1, e2, e3]
    refine ⟨?_, ?_, ?_⟩ <;> omega

/-- Claim C9, witness: one hour and one second into the cooldown window. -/
theorem checkDailyBonus_components_bounded_witness :
    (checkDailyBonus 1700000000000
        { balance := 0, daily_streak := 0,
          last_daily_claim := 1699996398999 }).hoursRemaining ≤ 23 ∧
    (checkDailyBonus 1700000000000
        { balance := 0, daily_streak := 0,
          last_daily_claim := 1699996398999 }).minutesRemaining ≤ 59 ∧
    (checkDailyBonus 1700000000000
        { balance := 0, daily_streak := 0,
          last_daily_claim := 1699996398999 }).secondsRemaining ≤ 59 :=
  checkDailyBonus_components_bounded 1700000000000
    { balance := 0, daily_streak := 0, last_daily_claim := 1699996398999 }
    (by norm_num) (by norm_num [ONE_DAY])

/-- Claim C7: a claim exactly one hour ago (with a genuine, non-sentinel
claim timestamp) puts the button in cooldown with the countdown reading
23h 0m 0s; the button text is the template around those components. -/
theorem checkDailyBonus_one_hour_ago (now : Int) (u : UserData)
    (hl : u.last_daily_claim = now - 3600000)
    (h0 : u.last_daily_claim ≠ 0) :
    (checkDailyBonus now u).mode = BtnMode.cooldown ∧
    (checkDailyBonus now u).hoursRemaining = 23 ∧
    (checkDailyBonus now u).minutesRemaining = 0 ∧
    (checkDailyBonus now u).secondsRemaining = 0 ∧
    (checkDailyBonus now u).label = "Next Bonus in 23h 0m 0s" := by
  have hday : ONE_DAY = 86400000 := by norm_num [ONE_DAY]
  have hd : now - u.last_daily_claim = 3600000 := by omega
  have hc : ¬(u.last_daily_claim = 0 ∨ now - u.last_daily_claim ≥ ONE_DAY) := by
    push_neg
    exact ⟨h0, by omega⟩
  simp only [checkDailyBonus, if_neg hc]
  rw [hd, hday]
  decide

/-- Claim C7, witness: `now = 7 200 000`, claimed at `3 600 000`. -/
theorem checkDailyBonus_one_hour_ago_witness :
    (checkDailyBonus 7200000
        { balance := 0, daily_streak := 0,
          last_daily_claim := 3600000 }).mode = BtnMode.cooldown ∧
    (checkDailyBonus 7200000
        { balance := 0, daily_streak := 0,
          last_daily_claim := 3600000 }).hoursRemaining = 23 ∧
    (checkDailyBonus 7200000
        { balance := 0, daily_streak := 0,
          last_daily_claim := 3600000 }).minutesRemaining = 0 ∧
    (checkDailyBonus 7200000
        { balance := 0, daily_streak := 0,
          last_daily_claim := 3600000 }).secondsRemaining = 0 ∧
    (checkDailyBonus 7200000
        { balance := 0, daily_streak := 0,
          last_daily_claim := 3600000 }).label = "Next Bonus in 23h 0m 0s" :=
  checkDailyBonus_one_hour_ago 7200000
    { balance := 0, daily_streak := 0, last_daily_claim := 3600000 }
    (by norm_num) (by norm_num)

/-- Claim C3: the code diverges from the claim. `claimDailyBonus` applies the
successful server response `{new_balance: 1500, streak: 4}` to the displays,
but never writes `userData.last_daily_claim`; the immediately following
`checkDailyBonus` therefore still sees the stale timestamp (here the
never-claimed sentinel 0) and leaves the button enabled in the claimable
state instead of starting a 24-hour cooldown. -/
theorem claimDailyBonus_success_remains_claimable :
    let s0 : AppState :=
      { userData := { balance := 100, daily_streak := 3, last_daily_claim := 0 }
        balanceDisplay := 100
        streakDisplay := 3
        buttonDisabled := false
        buttonLabel := "Claim Daily Bonus"
        tickPending := false
        toasts := [] }
    let s1 := claimDailyBonus 1700000000000 s0
      (Except.ok { message := "Daily bonus claimed!", new_balance := 1500, streak := 4 })
    s1.balanceDisplay = 1500 ∧
    s1.streakDisplay = 4 ∧
    s1.userData.last_daily_claim = 0 ∧
    s1.buttonDisabled = false ∧
    s1.buttonLabel = "Claim Daily Bonus" ∧
    s1.tickPending = false ∧
    (checkDailyBonus 1700000000000 s1.userData).mode = BtnMode.claimable := by
  decide

/-- Claim C4: a rejected claim only toasts the server's message, verbatim;
`userData`, both displays, the button, and the pending tick of the countdown
chain are untouched, so a failed claim never stalls the countdown. -/
theorem claimDailyBonus_error_preserves_state (now : Int) (s : AppState)
    (msg : String) :
    (claimDailyBonus now s (Except.error msg)).userData = s.userData ∧
    (claimDailyBonus now s (Except.error msg)).balanceDisplay = s.balanceDisplay ∧
    (claimDailyBonus now s (Except.error msg)).streakDisplay = s.streakDisplay ∧
    (claimDailyBonus now s (Except.error msg)).buttonDisabled = s.buttonDisabled ∧
    (claimDailyBonus now s (Except.error msg)).buttonLabel = s.buttonLabel ∧
    (claimDailyBonus now s (Except.error msg)).tickPending = s.tickPending ∧
    (claimDailyBonus now s (Except.error msg)).toasts =
      s.toasts ++ [(msg, "error")] :=
  ⟨rfl, rfl, rfl, rfl, rfl, rfl, rfl⟩

/-- Claim C8: `apiCall` surfaces every failure to the caller — a transport
rejection propagates with its own message, a non-ok response raises the
server's `message` when that is a non-empty string and the generic
"Request failed" otherwise, and no failing path returns success; an ok
response returns the parsed body without raising. -/
theorem apiCall_error_propagation :
    (∀ e, apiCall (FetchOutcome.rejected e) = Except.error e) ∧
    (∀ result, apiCall (FetchOutcome.completed true result) = Except.ok result) ∧
    (∀ result, ∃ msg,
      apiCall (FetchOutcome.completed false result) = Except.error msg) ∧
    (∀ result m, result.message = some m → m ≠ "" →
      apiCall (FetchOutcome.completed false result) = Except.error m) ∧
    (∀ result, result.message = none →
      apiCall (FetchOutcome.completed false result) = Except.error "Request failed") := by
  refine ⟨fun e => rfl, fun r => rfl, fun r => ⟨_, rfl⟩, ?_, ?_⟩
  · intro r m hm hne
    simp [apiCall, hm, hne]
  · intro r hm
    simp [apiCall, hm]

/-- Claim C8, witness: the cooldown rejection message is surfaced verbatim
and a message-less failure yields the generic message. -/
theorem apiCall_error_propagation_witness :
    apiCall (FetchOutcome.completed false { message := some "Already claimed today" }) =
      Except.error "Already claimed today" ∧
    apiCall (FetchOutcome.completed false { message := none }) =
      Except.error "Request failed" :=
  ⟨apiCall_error_propagation.2.2.2.1
      { message := some "Already claimed today" } "Already claimed today" rfl
      (by decide),
   apiCall_error_propagation.2.2.2.2 { message := none } rfl⟩

/-- Claim C10: for an empty list `displayTransactions` renders exactly the
"No transactions yet" placeholder; for a non-empty list it renders the
templates of at most the first five transactions, concatenated in list
order, and transactions beyond the fifth never influence the output. -/
theorem displayTransactions_at_most_five :
    (displayTransactions [] =
      "<p class=\"text-center text-muted\">No transactions yet</p>") ∧
    (∀ txs : List Transaction, txs ≠ [] →
      displayTransactions txs = String.join ((txs.take 5).map renderTx)) ∧
    (∀ txs rest : List Transaction, txs.length = 5 →
      displayTransactions (txs ++ rest) = displayTransactions txs) := by
  refine ⟨rfl, ?_, ?_⟩
  · intro txs h
    unfold displayTransactions
    rw [if_neg (mt List.length_eq_zero.mp h)]
  · intro txs rest h
    have hne : txs ≠ [] := by
      intro e
      rw [e] at h
      simp at h
    have hne2 : txs ++ rest ≠ [] := fun e => hne (List.append_eq_nil.mp e).1
    unfold displayTransactions
    rw [if_neg (mt List.length_eq_zero.mp hne2),
      if_neg (mt List.length_eq_zero.mp hne),
      List.take_append_of_le_length (by omega)]

/-- Claim C10, witness: a singleton list renders its one item, and a sixth
transaction appended after five does not change the output. -/
theorem displayTransactions_at_most_five_witness :
    displayTransactions [{ type := "EARN", description := "a", timestamp := "t1", amount := 5 }] =
      String.join
        (([{ type := "EARN", description := "a", timestamp := "t1", amount := 5 }] :
            List Transaction).take 5 |>.map renderTx) ∧
    displayTransactions
        ([⟨"EARN", "a", "t1", 1⟩, ⟨"SPEND", "b", "t2", 2⟩, ⟨"EARN", "c", "t3", 3⟩,
          ⟨"SPEND", "d", "t4", 4⟩, ⟨"EARN", "e", "t5", 5⟩] ++
          [⟨"EARN", "f", "t6", 6⟩]) =
      displayTransactions
        [⟨"EARN", "a", "t1", 1⟩, ⟨"SPEND", "b", "t2", 2⟩, ⟨"EARN", "c", "t3", 3⟩,
          ⟨"SPEND", "d", "t4", 4⟩, ⟨"EARN", "e", "t5", 5⟩] :=
  ⟨displayTransactions_at_most_five.2.1 _ (List.cons_ne_nil _ _),
   displayTransactions_at_most_five.2.2 _ _ rfl⟩
